import Mathlib

/-!
Shallow embedding of the Soroban grant contract in
`contracts/grant_contracts/src/lib.rs`, together with theorems about the
milestone accounting, the lifecycle state machine and the linear-vesting
calculator.

Machine integers: `u128` values are modelled as `Nat`; the overflow-checked
operations `checked_add` / `checked_mul` return `none` exactly when the
mathematical result does not fit in 128 bits.  `u64` timestamps are `Nat`
(`saturating_sub` coincides with truncated `Nat` subtraction).

Storage and effects: the contract's instance storage is a pair of partial
maps (grants by id, milestones by grant id and milestone id).  Each public
entry point becomes a function from a `ContractState` to
`Except Abort (ContractState × List Event)`: on success it returns the
committed state together with the ordered trace of storage writes and
external token-transfer calls, in the order the Rust code performs them; on
failure it returns the abort cause and no state, mirroring the host's
rollback of the whole invocation.  `panic_with_error!` aborts become
`Abort.contractError e`; `unwrap_optimized()` panics on a missing storage
key become `Abort.missingRecord`.  Caller authentication (`require_auth`)
is performed by an external gate and is not part of the engine modelled
here.
-/

namespace GrantContracts

/-- `2^128`, the number of `u128` values; a `u128` addition or
multiplication overflows exactly when the mathematical result is `≥` this. -/
def U128_MOD : Nat := 2 ^ 128

/-- `u128::checked_add`. -/
def u128_checked_add (a b : Nat) : Option Nat :=
  if a + b < U128_MOD then some (a + b) else none

/-- `u128::checked_mul`. -/
def u128_checked_mul (a b : Nat) : Option Nat :=
  if a * b < U128_MOD then some (a * b) else none

/-- `GrantStatus` from the source. -/
inductive GrantStatus where
  | Proposed
  | Active
  | Paused
  | Completed
  | Cancelled
  deriving DecidableEq, Repr

/-- `Grant` record from the source.  Addresses and symbols are opaque
identifiers, modelled as `Nat`. -/
structure Grant where
  admin : Nat
  grantee : Nat
  total_amount : Nat
  released_amount : Nat
  token_address : Nat
  created_at : Nat
  status : GrantStatus
  deriving DecidableEq, Repr

/-- `Milestone` record from the source. -/
structure Milestone where
  amount : Nat
  description : String
  approved : Bool
  approved_at : Option Nat
  deriving DecidableEq, Repr

/-- `GrantError` from the source. -/
inductive GrantError where
  | GrantNotFound
  | Unauthorized
  | InvalidAmount
  | MilestoneNotFound
  | AlreadyApproved
  | ExceedsTotalAmount
  | InvalidStatus
  deriving DecidableEq, Repr

/-- How an invocation aborts: `contractError e` models
`panic_with_error!(&env, e)`; `missingRecord` models the
`unwrap_optimized()` panic raised when a storage key is absent (a host
trap carrying no `GrantError` code). -/
inductive Abort where
  | contractError (e : GrantError)
  | missingRecord
  deriving DecidableEq, Repr

/-- One observable effect of an invocation, in program order: a storage
write of a grant or milestone record, or an external token-transfer call
(`transfer_tokens(env, token, src, dst, amount)`). -/
inductive Event where
  | setGrant (gid : Nat) (g : Grant)
  | setMilestone (gid mid : Nat) (m : Milestone)
  | transfer (token src dst amount : Nat)
  deriving DecidableEq, Repr

/-- The contract's instance storage: `DataKey::Grant(gid)` and
`DataKey::Milestone(gid, mid)` entries. -/
structure ContractState where
  grants : Nat → Option Grant
  milestones : Nat → Nat → Option Milestone

/-- Point update of the grant map (`storage().instance().set` on a grant key). -/
def upd (m : Nat → Option Grant) (k : Nat) (v : Grant) : Nat → Option Grant :=
  fun k' => if k' = k then some v else m k'

/-- Point update of the milestone map (`storage().instance().set` on a
milestone key). -/
def upd2 (m : Nat → Nat → Option Milestone) (k1 k2 : Nat) (v : Milestone) :
    Nat → Nat → Option Milestone :=
  fun a b => if a = k1 ∧ b = k2 then some v else m a b

/-- Storage with no grants and no milestones. -/
def initialState : ContractState :=
  { grants := fun _ => none, milestones := fun _ _ => none }

/-- `env.current_contract_address()`, an opaque address. -/
def current_contract_address : Nat := 0

/-- `create_grant`: rejects `total_amount == 0` with `InvalidAmount`, then
stores a fresh `Proposed` grant with `released_amount = 0` under
`DataKey::Grant(grant_id)` (overwriting any existing record, as the source
does).  `now` is `env.ledger().timestamp()`. -/
def create_grant (now : Nat) (s : ContractState) (grant_id admin grantee : Nat)
    (total_amount : Nat) (token_address : Nat) :
    Except Abort (ContractState × List Event) :=
  if total_amount = 0 then
    .error (.contractError .InvalidAmount)
  else
    let grant : Grant :=
      { admin := admin, grantee := grantee, total_amount := total_amount,
        released_amount := 0, token_address := token_address,
        created_at := now, status := .Proposed }
    .ok ({ s with grants := upd s.grants grant_id grant },
         [.setGrant grant_id grant])

/-- `add_milestone`: loads the grant (panic on missing key), rejects
`amount == 0` with `InvalidAmount`, then stores a fresh unapproved
milestone under `DataKey::Milestone(grant_id, milestone_id)` (overwriting
any existing record, as the source does). -/
def add_milestone (s : ContractState) (grant_id milestone_id : Nat)
    (amount : Nat) (description : String) :
    Except Abort (ContractState × List Event) :=
  match s.grants grant_id with
  | none => .error .missingRecord
  | some _grant =>
    if amount = 0 then
      .error (.contractError .InvalidAmount)
    else
      let milestone : Milestone :=
        { amount := amount, description := description,
          approved := false, approved_at := none }
      .ok ({ s with milestones := upd2 s.milestones grant_id milestone_id milestone },
           [.setMilestone grant_id milestone_id milestone])

/-- `approve_milestone`: loads grant and milestone (panic on a missing
key), rejects an already-approved milestone with `AlreadyApproved`,
computes `released_amount.checked_add(milestone.amount)` (overflow panics
with `ExceedsTotalAmount`), rejects `new_released > total_amount` with
`ExceedsTotalAmount`; then commits the approved milestone
(`approved_at = now`) and the updated grant (status `Completed` when
`new_released == total_amount`) to storage, and only afterwards calls the
external transfer of `milestone.amount` from `admin` to `grantee`. -/
def approve_milestone (now : Nat) (s : ContractState) (grant_id milestone_id : Nat) :
    Except Abort (ContractState × List Event) :=
  match s.grants grant_id with
  | none => .error .missingRecord
  | some grant =>
    match s.milestones grant_id milestone_id with
    | none => .error .missingRecord
    | some milestone =>
      if milestone.approved then
        .error (.contractError .AlreadyApproved)
      else
        match u128_checked_add grant.released_amount milestone.amount with
        | none => .error (.contractError .ExceedsTotalAmount)
        | some new_released =>
          if new_released > grant.total_amount then
            .error (.contractError .ExceedsTotalAmount)
          else
            let milestone' : Milestone :=
              { milestone with approved := true, approved_at := some now }
            let new_status : GrantStatus :=
              if new_released = grant.total_amount then .Completed else grant.status
            let grant' : Grant :=
              { grant with released_amount := new_released, status := new_status }
            .ok ({ s with
                    grants := upd s.grants grant_id grant',
                    milestones := upd2 s.milestones grant_id milestone_id milestone' },
                 [.setMilestone grant_id milestone_id milestone',
                  .setGrant grant_id grant',
                  .transfer grant.token_address grant.admin grant.grantee milestone.amount])

/-- `withdraw`: loads the grant (panic on missing key), rejects
`amount == 0` or `amount > released_amount` with `InvalidAmount`, commits
`released_amount -= amount` to storage, then calls the external transfer
of `amount` from the contract's own address to `grantee`. -/
def withdraw (s : ContractState) (grant_id : Nat) (amount : Nat) :
    Except Abort (ContractState × List Event) :=
  match s.grants grant_id with
  | none => .error .missingRecord
  | some grant =>
    if amount = 0 then
      .error (.contractError .InvalidAmount)
    else if amount > grant.released_amount then
      .error (.contractError .InvalidAmount)
    else
      let grant' : Grant := { grant with released_amount := grant.released_amount - amount }
      .ok ({ s with grants := upd s.grants grant_id grant' },
           [.setGrant grant_id grant',
            .transfer grant.token_address current_contract_address grant.grantee amount])

/-- `activate_grant`: `Proposed → Active`, else `InvalidStatus`. -/
def activate_grant (s : ContractState) (grant_id : Nat) :
    Except Abort (ContractState × List Event) :=
  match s.grants grant_id with
  | none => .error .missingRecord
  | some grant =>
    match grant.status with
    | .Proposed =>
      let grant' : Grant := { grant with status := .Active }
      .ok ({ s with grants := upd s.grants grant_id grant' },
           [.setGrant grant_id grant'])
    | _ => .error (.contractError .InvalidStatus)

/-- `pause_grant`: `Active → Paused`, else `InvalidStatus`. -/
def pause_grant (s : ContractState) (grant_id : Nat) :
    Except Abort (ContractState × List Event) :=
  match s.grants grant_id with
  | none => .error .missingRecord
  | some grant =>
    match grant.status with
    | .Active =>
      let grant' : Grant := { grant with status := .Paused }
      .ok ({ s with grants := upd s.grants grant_id grant' },
           [.setGrant grant_id grant'])
    | _ => .error (.contractError .InvalidStatus)

/-- `resume_grant`: `Paused → Active`, else `InvalidStatus`. -/
def resume_grant (s : ContractState) (grant_id : Nat) :
    Except Abort (ContractState × List Event) :=
  match s.grants grant_id with
  | none => .error .missingRecord
  | some grant =>
    match grant.status with
    | .Paused =>
      let grant' : Grant := { grant with status := .Active }
      .ok ({ s with grants := upd s.grants grant_id grant' },
           [.setGrant grant_id grant'])
    | _ => .error (.contractError .InvalidStatus)

/-- `cancel_grant`: `Proposed | Paused → Cancelled`, else `InvalidStatus`. -/
def cancel_grant (s : ContractState) (grant_id : Nat) :
    Except Abort (ContractState × List Event) :=
  match s.grants grant_id with
  | none => .error .missingRecord
  | some grant =>
    match grant.status with
    | .Proposed | .Paused =>
      let grant' : Grant := { grant with status := .Cancelled }
      .ok ({ s with grants := upd s.grants grant_id grant' },
           [.setGrant grant_id grant'])
    | _ => .error (.contractError .InvalidStatus)

/-- `get_grant`: read-only lookup; panic on a missing key. -/
def get_grant (s : ContractState) (grant_id : Nat) : Except Abort Grant :=
  match s.grants grant_id with
  | none => .error .missingRecord
  | some grant => .ok grant

/-- `get_remaining_amount`: `total_amount.saturating_sub(released_amount)`
of the stored grant (`Nat` subtraction is already saturating). -/
def get_remaining_amount (s : ContractState) (grant_id : Nat) : Except Abort Nat :=
  match get_grant s grant_id with
  | .error e => .error e
  | .ok grant => .ok (grant.total_amount - grant.released_amount)

/-- `grant::compute_claimable_balance` from the source, line by line:
instantaneous cliff at `duration == 0`; `0` before `start`; `total` once
`elapsed ≥ duration`; otherwise the split
`whole * elapsed + (rem * elapsed) / duration` with `checked_mul` guards
that fall back to `total` on overflow. -/
def compute_claimable_balance (total : Nat) (start now duration : Nat) : Nat :=
  if duration = 0 then
    if now ≥ start then total else 0
  else if now ≤ start then
    0
  else
    let elapsed := now - start
    if elapsed ≥ duration then
      total
    else
      let whole := total / duration
      let rem := total % duration
      match u128_checked_mul whole elapsed with
      | none => total
      | some part1 =>
        match u128_checked_mul rem elapsed with
        | none => total
        | some p => part1 + p / duration

/-- One invocation of a public entry point, with its arguments (and the
ledger timestamp for the entry points that read it). -/
inductive Op where
  | create (now gid admin grantee total tok : Nat)
  | addMilestone (gid mid amount : Nat) (description : String)
  | approve (now gid mid : Nat)
  | withdrawal (gid amount : Nat)
  | activate (gid : Nat)
  | pause (gid : Nat)
  | resume (gid : Nat)
  | cancel (gid : Nat)
  deriving DecidableEq, Repr

/-- Dispatch one invocation. -/
def applyOp (s : ContractState) : Op → Except Abort (ContractState × List Event)
  | .create now gid a ge t tok => create_grant now s gid a ge t tok
  | .addMilestone gid mid amount d => add_milestone s gid mid amount d
  | .approve now gid mid => approve_milestone now s gid mid
  | .withdrawal gid amount => withdraw s gid amount
  | .activate gid => activate_grant s gid
  | .pause gid => pause_grant s gid
  | .resume gid => resume_grant s gid
  | .cancel gid => cancel_grant s gid

/-- Run a sequence of invocations, requiring each to succeed. -/
def runOps (s : ContractState) : List Op → Option ContractState
  | [] => some s
  | op :: rest =>
    match applyOp s op with
    | .ok (s', _) => runOps s' rest
    | .error _ => none

/-- Grant lookup through an optional state, for concrete executions. -/
def grantAt (s? : Option ContractState) (gid : Nat) : Option Grant :=
  s?.bind fun s => s.grants gid

/-- Milestone lookup through an optional state, for concrete executions. -/
def milestoneAt (s? : Option ContractState) (gid mid : Nat) : Option Milestone :=
  s?.bind fun s => s.milestones gid mid

/-- The states reachable from empty storage by any finite sequence of
invocations.  A failing invocation aborts with no state change, so only
successful invocations move between reachable states. -/
inductive Reachable : ContractState → Prop where
  | init : Reachable initialState
  | step_create {s s' : ContractState} {ev : List Event}
      (now gid a ge t tok : Nat) :
      Reachable s → create_grant now s gid a ge t tok = .ok (s', ev) → Reachable s'
  | step_add {s s' : ContractState} {ev : List Event}
      (gid mid amount : Nat) (d : String) :
      Reachable s → add_milestone s gid mid amount d = .ok (s', ev) → Reachable s'
  | step_approve {s s' : ContractState} {ev : List Event}
      (now gid mid : Nat) :
      Reachable s → approve_milestone now s gid mid = .ok (s', ev) → Reachable s'
  | step_withdraw {s s' : ContractState} {ev : List Event}
      (gid amount : Nat) :
      Reachable s → withdraw s gid amount = .ok (s', ev) → Reachable s'
  | step_activate {s s' : ContractState} {ev : List Event} (gid : Nat) :
      Reachable s → activate_grant s gid = .ok (s', ev) → Reachable s'
  | step_pause {s s' : ContractState} {ev : List Event} (gid : Nat) :
      Reachable s → pause_grant s gid = .ok (s', ev) → Reachable s'
  | step_resume {s s' : ContractState} {ev : List Event} (gid : Nat) :
      Reachable s → resume_grant s gid = .ok (s', ev) → Reachable s'
  | step_cancel {s s' : ContractState} {ev : List Event} (gid : Nat) :
      Reachable s → cancel_grant s gid = .ok (s', ev) → Reachable s'

/-- The released/total accounting invariant of the spec, for every grant
in storage. -/
def ReleasedWithinTotal (s : ContractState) : Prop :=
  ∀ gid g, s.grants gid = some g →
    0 ≤ g.released_amount ∧ g.released_amount ≤ g.total_amount

/-- The piecewise reference definition of the vesting calculator, written
from the spec's words: instantaneous cliff when `duration == 0`; `0` at or
before `start`; `total` once `elapsed ≥ duration`; otherwise
`whole*elapsed + (rem*elapsed)/duration` with `whole = total / duration`
and `rem = total % duration`, returning `total` when either multiplication
overflows `u128`. -/
def compute_claimable_spec (total : Nat) (start now duration : Nat) : Nat :=
  if duration = 0 then
    if now ≥ start then total else 0
  else if now ≤ start then
    0
  else if duration ≤ now - start then
    total
  else if U128_MOD ≤ total / duration * (now - start) ∨
          U128_MOD ≤ total % duration * (now - start) then
    total
  else
    total / duration * (now - start) + total % duration * (now - start) / duration

/-- Is this event a storage write? -/
def isWrite : Event → Bool
  | .setGrant _ _ => true
  | .setMilestone _ _ _ => true
  | .transfer _ _ _ _ => false

/-- Is this event an external token-transfer call? -/
def isTransfer : Event → Bool
  | .transfer _ _ _ _ => true
  | _ => false

/-- Checks-effects-interactions ordering of a trace: no storage write
occurs after any external transfer call. -/
def writesPrecedeCalls : List Event → Bool
  | [] => true
  | e :: rest =>
    if isTransfer e then rest.all (fun x => !isWrite x) && writesPrecedeCalls rest
    else writesPrecedeCalls rest

/-! Concrete storage fixtures used by the witness theorems.  Addresses:
`2` = admin, `3` = grantee, `4` = token; grant id `1`, milestone id `1`. -/

/-- A freshly created grant: total `1000000`, nothing released. -/
def wGrant : Grant :=
  { admin := 2, grantee := 3, total_amount := 1000000, released_amount := 0,
    token_address := 4, created_at := 0, status := .Proposed }

/-- An unapproved milestone of `250000`. -/
def wMilestone : Milestone :=
  { amount := 250000, description := "m", approved := false, approved_at := none }

/-- Storage holding only `wGrant` under grant id `1`. -/
def wState : ContractState :=
  { grants := upd initialState.grants 1 wGrant,
    milestones := initialState.milestones }

/-- `wState` plus the unapproved milestone `wMilestone` at `(1, 1)`. -/
def wStateM : ContractState :=
  { grants := wState.grants,
    milestones := upd2 wState.milestones 1 1 wMilestone }

/-- An active grant with `600000` of `1000000` already released. -/
def wGrantR : Grant :=
  { admin := 2, grantee := 3, total_amount := 1000000, released_amount := 600000,
    token_address := 4, created_at := 0, status := .Active }

/-- An unapproved milestone of `500000` (approving it on `wGrantR` would
exceed the total). -/
def wMilestone2 : Milestone :=
  { amount := 500000, description := "n", approved := false, approved_at := none }

/-- Storage holding `wGrantR` and `wMilestone2` at `(1, 1)`. -/
def wStateR : ContractState :=
  { grants := upd initialState.grants 1 wGrantR,
    milestones := upd2 initialState.milestones 1 1 wMilestone2 }

/-- Storage holding `wGrantR` and the small milestone `wMilestone` at
`(1, 1)` (approving it fits under the total). -/
def wStateB : ContractState :=
  { grants := upd initialState.grants 1 wGrantR,
    milestones := upd2 initialState.milestones 1 1 wMilestone }

/-- The milestone `wMilestone` after approval at timestamp `0`. -/
def wMilestoneAppr : Milestone :=
  { amount := 250000, description := "m", approved := true, approved_at := some 0 }

/-- `wGrant` after that approval: `250000` released, still `Proposed`. -/
def wGrantAppr : Grant :=
  { admin := 2, grantee := 3, total_amount := 1000000, released_amount := 250000,
    token_address := 4, created_at := 0, status := .Proposed }

/-- Storage after `approve_milestone 0 wStateM 1 1` succeeds. -/
def wStateAppr : ContractState :=
  { grants := upd wStateM.grants 1 wGrantAppr,
    milestones := upd2 wStateM.milestones 1 1 wMilestoneAppr }

/-! Concrete invocation sequences exhibiting behaviour of completed grants
and of milestone re-creation. -/

/-- Grant of `100` with milestones `50`, `50`, `10`; approve the two
halves (completing the grant), then withdraw `50`. -/
def completedThenWithdrawnOps : List Op :=
  [.create 0 1 2 3 100 4,
   .addMilestone 1 1 50 "a",
   .addMilestone 1 2 50 "b",
   .addMilestone 1 3 10 "c",
   .approve 0 1 1,
   .approve 0 1 2,
   .withdrawal 1 50]

/-- `completedThenWithdrawnOps` followed by approving the `10` milestone. -/
def approveAfterCompletedOps : List Op :=
  completedThenWithdrawnOps ++ [.approve 0 1 3]

/-- Create a grant of `1000000`, add a `250000` milestone at `(1, 1)` and
approve it. -/
def approveOnceOps : List Op :=
  [.create 0 1 2 3 1000000 4,
   .addMilestone 1 1 250000 "m",
   .approve 0 1 1]

/-- `approveOnceOps`, then re-add a milestone under the same `(1, 1)` key. -/
def readdAfterApproveOps : List Op :=
  approveOnceOps ++ [.addMilestone 1 1 250000 "m"]

/-- `readdAfterApproveOps`, then approve `(1, 1)` a second time. -/
def approveTwiceOps : List Op :=
  readdAfterApproveOps ++ [.approve 5 1 1]

/-- The milestone record committed by a successful approval: `approved`
set, `approved_at` stamped with the current time. -/
def approvedMs (m : Milestone) (now : Nat) : Milestone :=
  { m with approved := true, approved_at := some now }

/-- The grant record committed by a successful approval: released amount
raised to `new_released`, status `Completed` exactly when the total is
reached. -/
def updatedGrant (g : Grant) (new_released : Nat) : Grant :=
  { g with
    released_amount := new_released
    status := if new_released = g.total_amount then GrantStatus.Completed else g.status }

/-- The grant record committed by a successful withdrawal. -/
def withdrawnGrant (g : Grant) (amount : Nat) : Grant :=
  { g with released_amount := g.released_amount - amount }

/-- Events emitted by `approve_milestone 7 wStateB 1 1`. -/
def wApproveEvents : List Event :=
  [.setMilestone 1 1 (approvedMs wMilestone 7),
   .setGrant 1 (updatedGrant wGrantR 850000),
   .transfer 4 2 3 250000]

/-- Storage committed by `approve_milestone 7 wStateB 1 1`. -/
def wStateBAppr : ContractState :=
  { grants := upd wStateB.grants 1 (updatedGrant wGrantR 850000),
    milestones := upd2 wStateB.milestones 1 1 (approvedMs wMilestone 7) }

/-- Events emitted by `withdraw wStateB 1 600000`. -/
def wWithdrawEvents : List Event :=
  [.setGrant 1 (withdrawnGrant wGrantR 600000),
   .transfer 4 current_contract_address 3 600000]

/-- Storage committed by `withdraw wStateB 1 600000`. -/
def wStateBW : ContractState :=
  { grants := upd wStateB.grants 1 (withdrawnGrant wGrantR 600000),
    milestones := wStateB.milestones }

/-!
## Characterization lemmas

Each public operation, evaluated on storage where the records it loads are
present, equals an explicit case split on its guards.
-/

/-- `approve_milestone` on present records, as an explicit case split. -/
theorem approve_milestone_char {s : ContractState} {gid mid : Nat} {g : Grant}
    {m : Milestone} (now : Nat)
    (hg : s.grants gid = some g) (hm : s.milestones gid mid = some m) :
    approve_milestone now s gid mid =
      (if m.approved then .error (.contractError .AlreadyApproved)
       else
         match u128_checked_add g.released_amount m.amount with
         | none => .error (.contractError .ExceedsTotalAmount)
         | some new_released =>
           if new_released > g.total_amount then
             .error (.contractError .ExceedsTotalAmount)
           else
             .ok ({ s with
                      grants := upd s.grants gid (updatedGrant g new_released),
                      milestones := upd2 s.milestones gid mid (approvedMs m now) },
                  [.setMilestone gid mid (approvedMs m now),
                   .setGrant gid (updatedGrant g new_released),
                   .transfer g.token_address g.admin g.grantee m.amount])) := by
  unfold approve_milestone
  rw [hg, hm]
  rfl

/-- `withdraw` on a present grant, as an explicit case split. -/
theorem withdraw_char {s : ContractState} {gid : Nat} {g : Grant} (amount : Nat)
    (hg : s.grants gid = some g) :
    withdraw s gid amount =
      (if amount = 0 then .error (.contractError .InvalidAmount)
       else if amount > g.released_amount then .error (.contractError .InvalidAmount)
       else
         .ok ({ s with grants := upd s.grants gid (withdrawnGrant g amount) },
              [.setGrant gid (withdrawnGrant g amount),
               .transfer g.token_address current_contract_address g.grantee amount])) := by
  unfold withdraw
  rw [hg]
  rfl

/-- `activate_grant` on a present grant, as an explicit case split. -/
theorem activate_grant_char {s : ContractState} {gid : Nat} {g : Grant}
    (hg : s.grants gid = some g) :
    activate_grant s gid =
      (if g.status = .Proposed then
         .ok ({ s with grants := upd s.grants gid { g with status := .Active } },
              [.setGrant gid { g with status := .Active }])
       else .error (.contractError .InvalidStatus)) := by
  unfold activate_grant
  rw [hg]
  obtain ⟨a, ge, t, r, tok, c, st⟩ := g
  cases st <;> rfl

/-- `pause_grant` on a present grant, as an explicit case split. -/
theorem pause_grant_char {s : ContractState} {gid : Nat} {g : Grant}
    (hg : s.grants gid = some g) :
    pause_grant s gid =
      (if g.status = .Active then
         .ok ({ s with grants := upd s.grants gid { g with status := .Paused } },
              [.setGrant gid { g with status := .Paused }])
       else .error (.contractError .InvalidStatus)) := by
  unfold pause_grant
  rw [hg]
  obtain ⟨a, ge, t, r, tok, c, st⟩ := g
  cases st <;> rfl

/-- `resume_grant` on a present grant, as an explicit case split. -/
theorem resume_grant_char {s : ContractState} {gid : Nat} {g : Grant}
    (hg : s.grants gid = some g) :
    resume_grant s gid =
      (if g.status = .Paused then
         .ok ({ s with grants := upd s.grants gid { g with status := .Active } },
              [.setGrant gid { g with status := .Active }])
       else .error (.contractError .InvalidStatus)) := by
  unfold resume_grant
  rw [hg]
  obtain ⟨a, ge, t, r, tok, c, st⟩ := g
  cases st <;> rfl

/-- `cancel_grant` on a present grant, as an explicit case split. -/
theorem cancel_grant_char {s : ContractState} {gid : Nat} {g : Grant}
    (hg : s.grants gid = some g) :
    cancel_grant s gid =
      (if g.status = .Proposed ∨ g.status = .Paused then
         .ok ({ s with grants := upd s.grants gid { g with status := .Cancelled } },
              [.setGrant gid { g with status := .Cancelled }])
       else .error (.contractError .InvalidStatus)) := by
  unfold cancel_grant
  rw [hg]
  obtain ⟨a, ge, t, r, tok, c, st⟩ := g
  cases st <;> rfl

/-- `add_milestone` on a present grant, as an explicit case split. -/
theorem add_milestone_char {s : ContractState} {gid : Nat} {g : Grant}
    (mid amount : Nat) (d : String) (hg : s.grants gid = some g) :
    add_milestone s gid mid amount d =
      (if amount = 0 then .error (.contractError .InvalidAmount)
       else
         .ok ({ s with milestones := upd2 s.milestones gid mid ⟨amount, d, false, none⟩ },
              [.setMilestone gid mid ⟨amount, d, false, none⟩])) := by
  unfold add_milestone
  rw [hg]

/-!
## Vesting arithmetic
-/

/-- The division split used by the vesting calculator is exact:
`whole * el + rem * el / dur = total * el / dur`. -/
theorem vesting_split_eq {dur : Nat} (total el : Nat) (hd : 0 < dur) :
    total / dur * el + total % dur * el / dur = total * el / dur := by
  have h : total * el = total % dur * el + total / dur * el * dur := by
    conv_lhs => rw [← Nat.div_add_mod total dur]
    ring
  rw [h, Nat.add_mul_div_right _ _ hd]
  omega

/-- `total * el / dur ≤ total` once `el ≤ dur`. -/
theorem vesting_le_total {dur : Nat} (total el : Nat) (hd : 0 < dur) (hel : el ≤ dur) :
    total * el / dur ≤ total := by
  calc total * el / dur ≤ total * dur / dur :=
        Nat.div_le_div_right (Nat.mul_le_mul_left total hel)
    _ = total := Nat.mul_div_cancel total hd

/-- The source vesting calculator agrees with the piecewise reference
definition written from the spec. -/
theorem claimable_eq_spec (total start now duration : Nat) :
    compute_claimable_balance total start now duration =
      compute_claimable_spec total start now duration := by
  unfold compute_claimable_balance compute_claimable_spec u128_checked_mul
  by_cases h0 : duration = 0
  · simp [h0]
  · by_cases h1 : now ≤ start
    · simp [h0, h1]
    · by_cases h2 : duration ≤ now - start
      · simp [h0, h1, h2]
      · by_cases hw : total / duration * (now - start) < U128_MOD
        · by_cases hr : total % duration * (now - start) < U128_MOD
          · have hw' : ¬ U128_MOD ≤ total / duration * (now - start) := by omega
            have hr' : ¬ U128_MOD ≤ total % duration * (now - start) := by omega
            simp [h0, h1, h2, hw, hr, hw', hr']
          · have hr' : U128_MOD ≤ total % duration * (now - start) := by omega
            simp [h0, h1, h2, hw, hr, hr']
        · have hw' : U128_MOD ≤ total / duration * (now - start) := by omega
          simp [h0, h1, h2, hw, hw']

/-- The vesting calculator never pays out more than `total`. -/
theorem claimable_le_total (total start now duration : Nat) :
    compute_claimable_balance total start now duration ≤ total := by
  rw [claimable_eq_spec]
  unfold compute_claimable_spec
  split_ifs with h0 h1 h2 h3 h4 <;> try omega
  have hd : 0 < duration := Nat.pos_of_ne_zero h0
  calc total / duration * (now - start) + total % duration * (now - start) / duration
      = total * (now - start) / duration := vesting_split_eq total (now - start) hd
    _ ≤ total := vesting_le_total total (now - start) hd (by omega)

/-- Inside the strict vesting window, with neither split multiplication
overflowing, the calculator returns `total * elapsed / duration`. -/
theorem claimable_window (total start now duration : Nat) (h0 : duration ≠ 0)
    (h1 : start < now) (h2 : now - start < duration)
    (hw : total / duration * (now - start) < U128_MOD)
    (hr : total % duration * (now - start) < U128_MOD) :
    compute_claimable_balance total start now duration =
      total * (now - start) / duration := by
  rw [claimable_eq_spec]
  unfold compute_claimable_spec
  rw [if_neg h0, if_neg (by omega), if_neg (by omega), if_neg (by omega)]
  exact vesting_split_eq total (now - start) (Nat.pos_of_ne_zero h0)

/-- C6: `compute_claimable_balance` coincides with the piecewise reference
definition `compute_claimable_spec` (cliff at `duration = 0`; `0` at or
before `start`; `total` once `elapsed ≥ duration`; otherwise the
`whole`/`rem` split with a `total` fallback when either `u128`
multiplication overflows); its result never exceeds `total`; and inside
the vesting window, when neither multiplication overflows, it equals
`total * elapsed / duration`. -/
theorem compute_claimable_balance_correct (total start now duration : Nat) :
    compute_claimable_balance total start now duration =
      compute_claimable_spec total start now duration ∧
    compute_claimable_balance total start now duration ≤ total ∧
    (duration ≠ 0 → start < now → now - start < duration →
      total / duration * (now - start) < U128_MOD →
      total % duration * (now - start) < U128_MOD →
      compute_claimable_balance total start now duration =
        total * (now - start) / duration) :=
  ⟨claimable_eq_spec total start now duration,
   claimable_le_total total start now duration,
   fun h0 h1 h2 hw hr => claimable_window total start now duration h0 h1 h2 hw hr⟩

/-- Witness for C6: at half the vesting window the claimable balance is
`total * elapsed / duration` (here `500000000`, half the total). -/
theorem compute_claimable_balance_correct_w :
    compute_claimable_balance 1000000000 1700000000 1857680000 315360000 =
      1000000000 * 157680000 / 315360000 :=
  (compute_claimable_balance_correct 1000000000 1700000000 1857680000 315360000).2.2
    (by decide) (by decide) (by decide) (by decide) (by decide)

/-!
## Milestone approval
-/

/-- Success case of `approve_milestone`: the guards pass, and the
committed records and the event trace are explicit. -/
theorem approve_milestone_ok {now : Nat} {s : ContractState} {gid mid : Nat}
    {g : Grant} {m : Milestone}
    (hg : s.grants gid = some g) (hm : s.milestones gid mid = some m)
    (hna : m.approved = false)
    (hadd : g.released_amount + m.amount < U128_MOD)
    (hle : g.released_amount + m.amount ≤ g.total_amount) :
    approve_milestone now s gid mid =
      .ok ({ s with
              grants := upd s.grants gid (updatedGrant g (g.released_amount + m.amount)),
              milestones := upd2 s.milestones gid mid (approvedMs m now) },
           [.setMilestone gid mid (approvedMs m now),
            .setGrant gid (updatedGrant g (g.released_amount + m.amount)),
            .transfer g.token_address g.admin g.grantee m.amount]) := by
  rw [approve_milestone_char now hg hm, hna]
  rw [if_neg (by simp)]
  unfold u128_checked_add
  rw [if_pos hadd]
  dsimp only
  rw [if_neg (Nat.not_lt.mpr hle)]

/-- Inversion of a successful `approve_milestone`: the guards must have
passed and the result is the explicit commit. -/
theorem approve_milestone_ok_inv {now : Nat} {s s' : ContractState} {gid mid : Nat}
    {g : Grant} {m : Milestone} {ev : List Event}
    (hg : s.grants gid = some g) (hm : s.milestones gid mid = some m)
    (hok : approve_milestone now s gid mid = .ok (s', ev)) :
    m.approved = false ∧
    g.released_amount + m.amount < U128_MOD ∧
    g.released_amount + m.amount ≤ g.total_amount ∧
    s' = { s with
            grants := upd s.grants gid (updatedGrant g (g.released_amount + m.amount)),
            milestones := upd2 s.milestones gid mid (approvedMs m now) } ∧
    ev = [.setMilestone gid mid (approvedMs m now),
          .setGrant gid (updatedGrant g (g.released_amount + m.amount)),
          .transfer g.token_address g.admin g.grantee m.amount] := by
  rw [approve_milestone_char now hg hm] at hok
  cases hap : m.approved with
  | true => rw [hap] at hok; simp at hok
  | false =>
    rw [hap] at hok
    rw [if_neg (by simp)] at hok
    unfold u128_checked_add at hok
    by_cases hadd : g.released_amount + m.amount < U128_MOD
    · rw [if_pos hadd] at hok
      dsimp only at hok
      by_cases hgt : g.released_amount + m.amount > g.total_amount
      · rw [if_pos hgt] at hok
        exact Except.noConfusion hok
      · rw [if_neg hgt] at hok
        rw [Except.ok.injEq, Prod.mk.injEq] at hok
        exact ⟨rfl, hadd, Nat.not_lt.mp hgt, hok.1.symm, hok.2.symm⟩
    · rw [if_neg hadd] at hok
      exact Except.noConfusion hok

/-- C2: with the grant and an unapproved milestone present,
`approve_milestone` fails with `ExceedsTotalAmount` whenever the `u128`
addition `released_amount + milestone.amount` overflows or the sum exceeds
`total_amount`; the failure aborts the invocation, so neither the grant
nor the milestone is mutated (an aborted invocation commits no state). -/
theorem approve_milestone_exceeds {s : ContractState} {gid mid : Nat} {g : Grant}
    {m : Milestone} (now : Nat)
    (hg : s.grants gid = some g) (hm : s.milestones gid mid = some m)
    (hna : m.approved = false)
    (hover : U128_MOD ≤ g.released_amount + m.amount ∨
             g.total_amount < g.released_amount + m.amount) :
    approve_milestone now s gid mid = .error (.contractError .ExceedsTotalAmount) := by
  rw [approve_milestone_char now hg hm, hna]
  rw [if_neg (by simp)]
  unfold u128_checked_add
  rcases hover with h | h
  · rw [if_neg (Nat.not_lt.mpr h)]
  · by_cases hadd : g.released_amount + m.amount < U128_MOD
    · rw [if_pos hadd]
      dsimp only
      rw [if_pos h]
    · rw [if_neg hadd]

/-- Witness for C2: total `1000000`, `600000` already released, approving
a `500000` milestone fails with `ExceedsTotalAmount`. -/
theorem approve_milestone_exceeds_w :
    approve_milestone 0 wStateR 1 1 = .error (.contractError .ExceedsTotalAmount) :=
  approve_milestone_exceeds 0 rfl rfl rfl (Or.inr (by decide))

/-- C3: an already-approved milestone makes `approve_milestone` fail with
`AlreadyApproved` (the abort commits nothing); consequently, when an
approval succeeds, approving the same milestone again at any later
timestamp fails with `AlreadyApproved`. -/
theorem approve_milestone_already_approved {s : ContractState} {gid mid : Nat}
    {g : Grant} {m : Milestone} (now : Nat)
    (hg : s.grants gid = some g) (hm : s.milestones gid mid = some m) :
    (m.approved = true →
      approve_milestone now s gid mid = .error (.contractError .AlreadyApproved)) ∧
    (∀ s' ev, approve_milestone now s gid mid = .ok (s', ev) →
      ∀ now2, approve_milestone now2 s' gid mid =
        .error (.contractError .AlreadyApproved)) := by
  constructor
  · intro ha
    rw [approve_milestone_char now hg hm, ha]
    rw [if_pos rfl]
  · intro s' ev hok now2
    obtain ⟨-, -, -, rfl, -⟩ := approve_milestone_ok_inv hg hm hok
    have hg' : (upd s.grants gid (updatedGrant g (g.released_amount + m.amount))) gid =
        some (updatedGrant g (g.released_amount + m.amount)) := by
      simp [upd]
    have hm' : (upd2 s.milestones gid mid (approvedMs m now)) gid mid =
        some (approvedMs m now) := by
      simp [upd2]
    rw [approve_milestone_char now2 hg' hm']
    simp [approvedMs]

/-- Witness for C3: after approving `wMilestone` at `(1, 1)`, a second
approval fails with `AlreadyApproved`. -/
theorem approve_milestone_already_approved_w :
    approve_milestone 9 wStateAppr 1 1 = .error (.contractError .AlreadyApproved) :=
  (approve_milestone_already_approved 0
      (rfl : wStateM.grants 1 = some wGrant)
      (rfl : wStateM.milestones 1 1 = some wMilestone)).2 wStateAppr
    [.setMilestone 1 1 (approvedMs wMilestone 0),
     .setGrant 1 (updatedGrant wGrant 250000),
     .transfer 4 2 3 250000] rfl 9

/-- C4 counterexample: after completing a grant of `100` (two milestones
of `50`) and withdrawing `50`, the grant is `Completed` with
`released_amount = 50`; approving the remaining milestone of `10` then
succeeds and leaves the status `Completed` although
`50 + 10 ≠ 100` — refuting the claimed "status is `Completed` if and only
if `r + a = total_amount`". -/
theorem approve_completed_iff_cex :
    grantAt (runOps initialState completedThenWithdrawnOps) 1 =
      some { admin := 2, grantee := 3, total_amount := 100, released_amount := 50,
             token_address := 4, created_at := 0, status := .Completed } ∧
    milestoneAt (runOps initialState completedThenWithdrawnOps) 1 3 =
      some { amount := 10, description := "c", approved := false, approved_at := none } ∧
    grantAt (runOps initialState approveAfterCompletedOps) 1 =
      some { admin := 2, grantee := 3, total_amount := 100, released_amount := 60,
             token_address := 4, created_at := 0, status := .Completed } ∧
    (50 + 10 ≠ (100 : Nat)) := by
  refine ⟨?_, ?_, ?_, by decide⟩ <;> rfl

/-- C4 (amended): when `approve_milestone` succeeds on grant `g` (released
amount `r`) and milestone `m` (amount `a`), the committed milestone has
`approved = true` and `approved_at = now`, the committed grant has
`released_amount = r + a`, and its status is set to `Completed` when
`r + a = total_amount` and otherwise left at the previous status (so it is
`Completed` also when the previous status already was); whenever
`r + a = total_amount` — in particular after approving milestones whose
amounts sum to the total — the committed grant is `Completed` and
`get_remaining_amount` returns `0`. -/
theorem approve_milestone_success_spec {now : Nat} {s s' : ContractState}
    {gid mid : Nat} {g : Grant} {m : Milestone} {ev : List Event}
    (hg : s.grants gid = some g) (hm : s.milestones gid mid = some m)
    (hok : approve_milestone now s gid mid = .ok (s', ev)) :
    s'.milestones gid mid = some (approvedMs m now) ∧
    (approvedMs m now).approved = true ∧
    (approvedMs m now).approved_at = some now ∧
    s'.grants gid = some (updatedGrant g (g.released_amount + m.amount)) ∧
    (updatedGrant g (g.released_amount + m.amount)).released_amount =
      g.released_amount + m.amount ∧
    (updatedGrant g (g.released_amount + m.amount)).status =
      (if g.released_amount + m.amount = g.total_amount then .Completed else g.status) ∧
    (g.released_amount + m.amount = g.total_amount →
      (updatedGrant g (g.released_amount + m.amount)).status = .Completed ∧
      get_remaining_amount s' gid = .ok 0) := by
  obtain ⟨-, -, -, rfl, -⟩ := approve_milestone_ok_inv hg hm hok
  refine ⟨by simp [upd2], rfl, rfl, by simp [upd], rfl, rfl, fun htot => ⟨?_, ?_⟩⟩
  · simp [updatedGrant, htot]
  · unfold get_remaining_amount get_grant
    have hgg : (upd s.grants gid (updatedGrant g (g.released_amount + m.amount))) gid =
        some (updatedGrant g (g.released_amount + m.amount)) := by simp [upd]
    rw [show ({ s with
          grants := upd s.grants gid (updatedGrant g (g.released_amount + m.amount)),
          milestones := upd2 s.milestones gid mid (approvedMs m now) } : ContractState).grants
        = upd s.grants gid (updatedGrant g (g.released_amount + m.amount)) from rfl]
    rw [hgg]
    simp [updatedGrant, htot]

/-- Witness for the amended C4: approving `wMilestone` on `wStateM`
commits the approved milestone and the grant with `250000` released. -/
theorem approve_milestone_success_spec_w :
    wStateAppr.milestones 1 1 = some (approvedMs wMilestone 0) ∧
    (approvedMs wMilestone 0).approved = true ∧
    (approvedMs wMilestone 0).approved_at = some 0 ∧
    wStateAppr.grants 1 = some (updatedGrant wGrant 250000) ∧
    (updatedGrant wGrant 250000).released_amount = 250000 ∧
    (updatedGrant wGrant 250000).status =
      (if (250000 : Nat) = 1000000 then .Completed else .Proposed) ∧
    ((250000 : Nat) = 1000000 →
      (updatedGrant wGrant 250000).status = .Completed ∧
      get_remaining_amount wStateAppr 1 = .ok 0) :=
  approve_milestone_success_spec
    (rfl : wStateM.grants 1 = some wGrant)
    (rfl : wStateM.milestones 1 1 = some wMilestone) rfl

/-- C5: the code violates the claim that `approved` is set exactly once
and never unset: `add_milestone` never checks for an existing record, so
re-adding milestone `(1, 1)` after its approval overwrites it with
`approved = false`, and a second approval then succeeds — the flag goes
`true → false → true` and `released_amount` double-counts the single
milestone (`500000` released from one `250000` milestone). -/
theorem milestone_reopened_by_readd :
    milestoneAt (runOps initialState approveOnceOps) 1 1 =
      some { amount := 250000, description := "m", approved := true, approved_at := some 0 } ∧
    milestoneAt (runOps initialState readdAfterApproveOps) 1 1 =
      some { amount := 250000, description := "m", approved := false, approved_at := none } ∧
    milestoneAt (runOps initialState approveTwiceOps) 1 1 =
      some { amount := 250000, description := "m", approved := true, approved_at := some 5 } ∧
    grantAt (runOps initialState approveTwiceOps) 1 =
      some { admin := 2, grantee := 3, total_amount := 1000000, released_amount := 500000,
             token_address := 4, created_at := 0, status := .Proposed } := by
  refine ⟨?_, ?_, ?_, ?_⟩ <;> rfl

/-!
## Withdrawal and lifecycle
-/

/-- C7: on an existing grant, `withdraw` fails with `InvalidAmount` exactly
when `amount = 0` or `amount > released_amount`; on success it commits the
grant with `released_amount` decreased by exactly `amount`, leaving every
other grant field, every other grant record and all milestone records
unchanged, then calls the external transfer. -/
theorem withdraw_spec {s : ContractState} {gid : Nat} {g : Grant} (amount : Nat)
    (hg : s.grants gid = some g) :
    (withdraw s gid amount = .error (.contractError .InvalidAmount) ↔
      amount = 0 ∨ g.released_amount < amount) ∧
    (amount ≠ 0 → amount ≤ g.released_amount →
      withdraw s gid amount =
        .ok ({ s with grants := upd s.grants gid (withdrawnGrant g amount) },
             [.setGrant gid (withdrawnGrant g amount),
              .transfer g.token_address current_contract_address g.grantee amount])) := by
  rw [withdraw_char amount hg]
  constructor
  · constructor
    · intro h
      by_cases h0 : amount = 0
      · exact Or.inl h0
      · rw [if_neg h0] at h
        by_cases h1 : amount > g.released_amount
        · exact Or.inr h1
        · rw [if_neg h1] at h
          exact Except.noConfusion h
    · rintro (h0 | h1)
      · rw [if_pos h0]
      · rw [if_neg (by omega), if_pos h1]
  · intro h0 h1
    rw [if_neg h0, if_neg (by omega)]

/-- Witness for C7: withdrawing the whole `600000` released balance of
`wGrantR` succeeds and commits `released_amount = 0`. -/
theorem withdraw_spec_w :
    withdraw wStateR 1 600000 =
      .ok ({ wStateR with grants := upd wStateR.grants 1 (withdrawnGrant wGrantR 600000) },
           [.setGrant 1 (withdrawnGrant wGrantR 600000),
            .transfer 4 current_contract_address 3 600000]) :=
  (withdraw_spec 600000 (rfl : wStateR.grants 1 = some wGrantR)).2
    (by decide) (by decide)

/-- C8: the lifecycle operations implement exactly the claimed state
machine on an existing grant: `activate_grant` succeeds only from
`Proposed` (committing `Active`), `pause_grant` only from `Active`
(committing `Paused`), `resume_grant` only from `Paused` (committing
`Active`), `cancel_grant` only from `Proposed` or `Paused` (committing
`Cancelled`); from any other source status each fails with `InvalidStatus`
and, the invocation aborting, commits nothing. -/
theorem lifecycle_spec {s : ContractState} {gid : Nat} {g : Grant}
    (hg : s.grants gid = some g) :
    (activate_grant s gid =
      if g.status = .Proposed then
        .ok ({ s with grants := upd s.grants gid { g with status := .Active } },
             [.setGrant gid { g with status := .Active }])
      else .error (.contractError .InvalidStatus)) ∧
    (pause_grant s gid =
      if g.status = .Active then
        .ok ({ s with grants := upd s.grants gid { g with status := .Paused } },
             [.setGrant gid { g with status := .Paused }])
      else .error (.contractError .InvalidStatus)) ∧
    (resume_grant s gid =
      if g.status = .Paused then
        .ok ({ s with grants := upd s.grants gid { g with status := .Active } },
             [.setGrant gid { g with status := .Active }])
      else .error (.contractError .InvalidStatus)) ∧
    (cancel_grant s gid =
      if g.status = .Proposed ∨ g.status = .Paused then
        .ok ({ s with grants := upd s.grants gid { g with status := .Cancelled } },
             [.setGrant gid { g with status := .Cancelled }])
      else .error (.contractError .InvalidStatus)) :=
  ⟨activate_grant_char hg, pause_grant_char hg, resume_grant_char hg,
   cancel_grant_char hg⟩

/-- Witness for C8: on the `Proposed` grant `wGrant`, activation commits
`Active`, pausing and resuming fail with `InvalidStatus`, cancelling
commits `Cancelled`. -/
theorem lifecycle_spec_w :
    (activate_grant wState 1 =
      .ok ({ wState with grants := upd wState.grants 1 { wGrant with status := .Active } },
           [.setGrant 1 { wGrant with status := .Active }])) ∧
    (pause_grant wState 1 = .error (.contractError .InvalidStatus)) ∧
    (resume_grant wState 1 = .error (.contractError .InvalidStatus)) ∧
    (cancel_grant wState 1 =
      .ok ({ wState with grants := upd wState.grants 1 { wGrant with status := .Cancelled } },
           [.setGrant 1 { wGrant with status := .Cancelled }])) :=
  lifecycle_spec (rfl : wState.grants 1 = some wGrant)

/-!
## Effect ordering and missing records
-/

/-- C9: in every successful `approve_milestone` and `withdraw` invocation
the storage writes all precede the external transfer call in the emitted
trace (checks-effects-interactions), a transfer call is present, and the
state committed before the transfer — the state any re-entrant call made
from within the transfer observes — already has the milestone approved,
respectively the withdrawn balance decremented. -/
theorem commit_before_transfer (now : Nat) {s : ContractState} {gid mid : Nat}
    {g : Grant} {m : Milestone}
    (hg : s.grants gid = some g) (hm : s.milestones gid mid = some m) :
    (∀ s' ev, approve_milestone now s gid mid = .ok (s', ev) →
      writesPrecedeCalls ev = true ∧ ev.any isTransfer = true ∧
      s'.milestones gid mid = some (approvedMs m now) ∧
      s'.grants gid = some (updatedGrant g (g.released_amount + m.amount))) ∧
    (∀ amount s' ev, withdraw s gid amount = .ok (s', ev) →
      writesPrecedeCalls ev = true ∧ ev.any isTransfer = true ∧
      s'.grants gid = some (withdrawnGrant g amount)) := by
  constructor
  · intro s' ev hok
    obtain ⟨-, -, -, rfl, rfl⟩ := approve_milestone_ok_inv hg hm hok
    exact ⟨rfl, rfl, by simp [upd2], by simp [upd]⟩
  · intro amount s' ev hok
    rw [withdraw_char amount hg] at hok
    by_cases h0 : amount = 0
    · rw [if_pos h0] at hok
      exact Except.noConfusion hok
    · rw [if_neg h0] at hok
      by_cases h1 : amount > g.released_amount
      · rw [if_pos h1] at hok
        exact Except.noConfusion hok
      · rw [if_neg h1] at hok
        rw [Except.ok.injEq, Prod.mk.injEq] at hok
        obtain ⟨h2, h3⟩ := hok
        subst h2
        subst h3
        exact ⟨rfl, rfl, by simp [upd]⟩

/-- Witness for C9: the traces of `approve_milestone 7 wStateB 1 1` and
`withdraw wStateB 1 600000` order all writes before the transfer, and the
committed states contain the approved milestone / decremented balance. -/
theorem commit_before_transfer_w :
    (writesPrecedeCalls wApproveEvents = true ∧ wApproveEvents.any isTransfer = true ∧
      wStateBAppr.milestones 1 1 = some (approvedMs wMilestone 7) ∧
      wStateBAppr.grants 1 = some (updatedGrant wGrantR 850000)) ∧
    (writesPrecedeCalls wWithdrawEvents = true ∧ wWithdrawEvents.any isTransfer = true ∧
      wStateBW.grants 1 = some (withdrawnGrant wGrantR 600000)) :=
  ⟨(commit_before_transfer 7
      (rfl : wStateB.grants 1 = some wGrantR)
      (rfl : wStateB.milestones 1 1 = some wMilestone)).1 wStateBAppr wApproveEvents rfl,
   (commit_before_transfer 7
      (rfl : wStateB.grants 1 = some wGrantR)
      (rfl : wStateB.milestones 1 1 = some wMilestone)).2 600000 wStateBW wWithdrawEvents rfl⟩

/-- C10 counterexample: `add_milestone` (and `get_grant`) on an absent
grant abort with the `unwrap_optimized` panic, which is not the explicit
`GrantNotFound` contract error the claim requires. -/
theorem missing_grant_not_explicit_cex :
    add_milestone initialState 1 1 5 "d" = .error .missingRecord ∧
    get_grant initialState 1 = .error .missingRecord ∧
    Abort.missingRecord ≠ Abort.contractError .GrantNotFound :=
  ⟨rfl, rfl, by decide⟩

/-- C10 (amended): every operation invoked on a missing grant aborts with
the `unwrap_optimized` panic (`missingRecord`), not with an explicit
`GrantNotFound` engine error, and `approve_milestone` on a missing
milestone aborts the same way, not with `MilestoneNotFound`; the
`GrantNotFound` and `MilestoneNotFound` error variants are declared but
never raised by the code. -/
theorem missing_record_spec (s : ContractState) (gid mid amount now : Nat)
    (d : String) :
    (s.grants gid = none →
      add_milestone s gid mid amount d = .error .missingRecord ∧
      approve_milestone now s gid mid = .error .missingRecord ∧
      withdraw s gid amount = .error .missingRecord ∧
      activate_grant s gid = .error .missingRecord ∧
      pause_grant s gid = .error .missingRecord ∧
      resume_grant s gid = .error .missingRecord ∧
      cancel_grant s gid = .error .missingRecord ∧
      get_grant s gid = .error .missingRecord ∧
      get_remaining_amount s gid = .error .missingRecord) ∧
    (∀ g, s.grants gid = some g → s.milestones gid mid = none →
      approve_milestone now s gid mid = .error .missingRecord) := by
  constructor
  · intro h
    refine ⟨?_, ?_, ?_, ?_, ?_, ?_, ?_, ?_, ?_⟩
    · unfold add_milestone
      rw [h]
    · unfold approve_milestone
      rw [h]
    · unfold withdraw
      rw [h]
    · unfold activate_grant
      rw [h]
    · unfold pause_grant
      rw [h]
    · unfold resume_grant
      rw [h]
    · unfold cancel_grant
      rw [h]
    · unfold get_grant
      rw [h]
    · unfold get_remaining_amount get_grant
      rw [h]
  · intro g hgg hmm
    unfold approve_milestone
    rw [hgg, hmm]

/-- Witness for the amended C10: on empty storage every grant lookup
panics; on `wState` the milestone `(1, 2)` is absent and approval panics. -/
theorem missing_record_spec_w :
    add_milestone initialState 2 1 5 "d" = .error .missingRecord ∧
    approve_milestone 0 wState 1 2 = .error .missingRecord :=
  ⟨((missing_record_spec initialState 2 1 5 0 "d").1 rfl).1,
   (missing_record_spec wState 1 2 5 0 "d").2 wGrant rfl rfl⟩

/-!
## The released/total invariant over all reachable states
-/

/-- Writing a status-only change of a stored grant preserves the
invariant. -/
theorem inv_status_set {s : ContractState} {gid : Nat} {g : Grant} (st : GrantStatus)
    (h : ReleasedWithinTotal s) (hgg : s.grants gid = some g) :
    ReleasedWithinTotal
      { s with grants := upd s.grants gid { g with status := st } } := by
  intro k gg hk
  simp only [upd] at hk
  by_cases hkg : k = gid
  · subst hkg
    rw [if_pos rfl] at hk
    obtain rfl := Option.some.inj hk
    simpa using h _ g hgg
  · rw [if_neg hkg] at hk
    exact h k gg hk

/-- `create_grant` preserves the invariant (the new grant has
`released_amount = 0`). -/
theorem inv_create {now gid a ge t tok : Nat} {s s' : ContractState} {ev : List Event}
    (h : ReleasedWithinTotal s)
    (hc : create_grant now s gid a ge t tok = .ok (s', ev)) :
    ReleasedWithinTotal s' := by
  unfold create_grant at hc
  split at hc
  · exact Except.noConfusion hc
  · rw [Except.ok.injEq, Prod.mk.injEq] at hc
    obtain ⟨h1, -⟩ := hc
    subst h1
    intro k gg hk
    simp only [upd] at hk
    by_cases hkg : k = gid
    · subst hkg
      rw [if_pos rfl] at hk
      obtain rfl := Option.some.inj hk
      exact ⟨Nat.zero_le _, Nat.zero_le _⟩
    · rw [if_neg hkg] at hk
      exact h k gg hk

/-- `add_milestone` preserves the invariant (it writes no grant record). -/
theorem inv_add {gid mid amount : Nat} {d : String} {s s' : ContractState}
    {ev : List Event} (h : ReleasedWithinTotal s)
    (hc : add_milestone s gid mid amount d = .ok (s', ev)) :
    ReleasedWithinTotal s' := by
  cases hgg : s.grants gid with
  | none =>
    unfold add_milestone at hc
    rw [hgg] at hc
    exact Except.noConfusion hc
  | some g =>
    rw [add_milestone_char mid amount d hgg] at hc
    split at hc
    · exact Except.noConfusion hc
    · rw [Except.ok.injEq, Prod.mk.injEq] at hc
      obtain ⟨h1, -⟩ := hc
      subst h1
      intro k gg hk
      exact h k gg hk

/-- `approve_milestone` preserves the invariant: the guard admits only
`new_released ≤ total_amount`. -/
theorem inv_approve {now gid mid : Nat} {s s' : ContractState} {ev : List Event}
    (h : ReleasedWithinTotal s)
    (hc : approve_milestone now s gid mid = .ok (s', ev)) :
    ReleasedWithinTotal s' := by
  cases hgg : s.grants gid with
  | none =>
    unfold approve_milestone at hc
    rw [hgg] at hc
    exact Except.noConfusion hc
  | some g =>
    cases hmm : s.milestones gid mid with
    | none =>
      unfold approve_milestone at hc
      rw [hgg, hmm] at hc
      exact Except.noConfusion hc
    | some m =>
      obtain ⟨-, -, hle, rfl, -⟩ := approve_milestone_ok_inv hgg hmm hc
      intro k gg hk
      simp only [upd] at hk
      by_cases hkg : k = gid
      · subst hkg
        rw [if_pos rfl] at hk
        obtain rfl := Option.some.inj hk
        refine ⟨Nat.zero_le _, ?_⟩
        simpa [updatedGrant] using hle
      · rw [if_neg hkg] at hk
        exact h k gg hk

/-- `withdraw` preserves the invariant: the released amount only
decreases. -/
theorem inv_withdraw {gid amount : Nat} {s s' : ContractState} {ev : List Event}
    (h : ReleasedWithinTotal s)
    (hc : withdraw s gid amount = .ok (s', ev)) :
    ReleasedWithinTotal s' := by
  cases hgg : s.grants gid with
  | none =>
    unfold withdraw at hc
    rw [hgg] at hc
    exact Except.noConfusion hc
  | some g =>
    rw [withdraw_char amount hgg] at hc
    split at hc
    · exact Except.noConfusion hc
    · split at hc
      · exact Except.noConfusion hc
      · rw [Except.ok.injEq, Prod.mk.injEq] at hc
        obtain ⟨h1, -⟩ := hc
        subst h1
        intro k gg hk
        simp only [upd] at hk
        by_cases hkg : k = gid
        · subst hkg
          rw [if_pos rfl] at hk
          obtain rfl := Option.some.inj hk
          have h2 := (h _ g hgg).2
          refine ⟨Nat.zero_le _, ?_⟩
          simp only [withdrawnGrant]
          omega
        · rw [if_neg hkg] at hk
          exact h k gg hk

/-- `activate_grant` preserves the invariant (status-only change). -/
theorem inv_activate {gid : Nat} {s s' : ContractState} {ev : List Event}
    (h : ReleasedWithinTotal s)
    (hc : activate_grant s gid = .ok (s', ev)) :
    ReleasedWithinTotal s' := by
  cases hgg : s.grants gid with
  | none =>
    unfold activate_grant at hc
    rw [hgg] at hc
    exact Except.noConfusion hc
  | some g =>
    rw [activate_grant_char hgg] at hc
    split at hc
    · rw [Except.ok.injEq, Prod.mk.injEq] at hc
      obtain ⟨h1, -⟩ := hc
      subst h1
      exact inv_status_set _ h hgg
    · exact Except.noConfusion hc

/-- `pause_grant` preserves the invariant (status-only change). -/
theorem inv_pause {gid : Nat} {s s' : ContractState} {ev : List Event}
    (h : ReleasedWithinTotal s)
    (hc : pause_grant s gid = .ok (s', ev)) :
    ReleasedWithinTotal s' := by
  cases hgg : s.grants gid with
  | none =>
    unfold pause_grant at hc
    rw [hgg] at hc
    exact Except.noConfusion hc
  | some g =>
    rw [pause_grant_char hgg] at hc
    split at hc
    · rw [Except.ok.injEq, Prod.mk.injEq] at hc
      obtain ⟨h1, -⟩ := hc
      subst h1
      exact inv_status_set _ h hgg
    · exact Except.noConfusion hc

/-- `resume_grant` preserves the invariant (status-only change). -/
theorem inv_resume {gid : Nat} {s s' : ContractState} {ev : List Event}
    (h : ReleasedWithinTotal s)
    (hc : resume_grant s gid = .ok (s', ev)) :
    ReleasedWithinTotal s' := by
  cases hgg : s.grants gid with
  | none =>
    unfold resume_grant at hc
    rw [hgg] at hc
    exact Except.noConfusion hc
  | some g =>
    rw [resume_grant_char hgg] at hc
    split at hc
    · rw [Except.ok.injEq, Prod.mk.injEq] at hc
      obtain ⟨h1, -⟩ := hc
      subst h1
      exact inv_status_set _ h hgg
    · exact Except.noConfusion hc

/-- `cancel_grant` preserves the invariant (status-only change). -/
theorem inv_cancel {gid : Nat} {s s' : ContractState} {ev : List Event}
    (h : ReleasedWithinTotal s)
    (hc : cancel_grant s gid = .ok (s', ev)) :
    ReleasedWithinTotal s' := by
  cases hgg : s.grants gid with
  | none =>
    unfold cancel_grant at hc
    rw [hgg] at hc
    exact Except.noConfusion hc
  | some g =>
    rw [cancel_grant_char hgg] at hc
    split at hc
    · rw [Except.ok.injEq, Prod.mk.injEq] at hc
      obtain ⟨h1, -⟩ := hc
      subst h1
      exact inv_status_set _ h hgg
    · exact Except.noConfusion hc

/-- C1: every state reachable from empty storage by any finite sequence of
`create_grant`, `add_milestone`, `approve_milestone`, `withdraw`,
`activate_grant`, `pause_grant`, `resume_grant`, `cancel_grant`
invocations (a failing invocation aborts and leaves the state unchanged,
so only successful invocations move between states) satisfies
`0 ≤ released_amount ≤ total_amount` for every stored grant. -/
theorem reachable_released_within_total {s : ContractState} (hs : Reachable s) :
    ∀ gid g, s.grants gid = some g →
      0 ≤ g.released_amount ∧ g.released_amount ≤ g.total_amount := by
  induction hs with
  | init => intro gid g hk; exact Option.noConfusion hk
  | step_create now gid a ge t tok hr hc ih => exact inv_create ih hc
  | step_add gid mid amount d hr hc ih => exact inv_add ih hc
  | step_approve now gid mid hr hc ih => exact inv_approve ih hc
  | step_withdraw gid amount hr hc ih => exact inv_withdraw ih hc
  | step_activate gid hr hc ih => exact inv_activate ih hc
  | step_pause gid hr hc ih => exact inv_pause ih hc
  | step_resume gid hr hc ih => exact inv_resume ih hc
  | step_cancel gid hr hc ih => exact inv_cancel ih hc

/-- Witness for C1: the state after one successful `create_grant` is
reachable, and its stored grant satisfies the invariant. -/
theorem reachable_released_within_total_w :
    0 ≤ wGrant.released_amount ∧ wGrant.released_amount ≤ wGrant.total_amount :=
  reachable_released_within_total
    (Reachable.step_create 0 1 2 3 1000000 4 Reachable.init
      (rfl : create_grant 0 initialState 1 2 3 1000000 4 =
        .ok (wState, [.setGrant 1 wGrant])))
    1 wGrant rfl

end GrantContracts
